import Mathlib

/-!
Shallow embedding of the Vaultittech YouTube title automator
(`src/index.js`) and verification of its specification claims.

The JavaScript program is a single class whose mutable fields are an
OAuth access token with its expiry, and a `stats` record
(`updatesPerformed`, `lastUpdate`, `peakEngagement`).  Network calls go
through `axios`; we model the network as an environment of responses and
record every outgoing call in an event trace.  The recursion in
`updateVideoTitle` (retry on HTTP 401) is not bounded in the source: the
retry is an async re-invocation resumed after awaits on an unwound
stack, so under persistent 401 responses the source diverges (it
retries forever, never surfacing an error).  The embedding bounds that
recursion with explicit fuel; exhausting the fuel returns a marker
error that truncates the divergence — a model artifact, not a
behavior of the program.
-/

namespace Vaultittech

/-- A JavaScript error value as the code observes it:
`error.response?.status`, `error.response?.data`, `error.message`. -/
structure JsError where
  status : Option Nat
  data : Option String
  message : String
deriving DecidableEq, Repr

/-- Body of a successful OAuth token-endpoint response. -/
structure TokenResponse where
  access_token : String
  expires_in : Int
deriving DecidableEq, Repr

/-- The `statistics` part of a video item, with the numeric values the
code obtains by `parseInt` of the API's decimal strings. -/
structure Statistics where
  viewCount : Nat
  likeCount : Nat
  commentCount : Nat
deriving DecidableEq, Repr

/-- A video `snippet` as a JavaScript object: a map from field name to
(optional) field value, so that object spread can be modelled exactly. -/
def SnippetT : Type := String → Option String

/-- One element of the `items` array of a stats read response. -/
structure VideoItem where
  statistics : Statistics
  snippet : SnippetT

/-- The stats record built by `getVideoStats` (ratios are exact
rationals standing for the JS number division). -/
structure VideoStats where
  views : Nat
  likes : Nat
  comments : Nat
  currentTitle : Option String
  publishedAt : Option String
  likeRatio : ℚ
  commentRatio : ℚ
deriving DecidableEq

/-- The automator's `this.stats` performance-tracking record. -/
structure RunStats where
  updatesPerformed : Nat
  lastUpdate : Option String
  peakEngagement : Nat
deriving DecidableEq, Repr

/-- The mutable fields of the automator instance. -/
structure AState where
  accessToken : Option String
  accessTokenExpiry : Option Int
  stats : RunStats
deriving DecidableEq, Repr

/-- Body of the metadata write (PUT) request:
`{ id, snippet: {...snippet, title: newTitle, categoryId: snippet.categoryId} }`. -/
structure UpdateData where
  id : String
  snippet : SnippetT

/-- One entry of the configured video list. -/
structure VideoTask where
  videoId : String
  originalTitle : String
deriving DecidableEq, Repr

/-- The per-video result object returned by `processVideo`. -/
structure ProcessResult where
  success : Bool
  videoId : String
  oldTitle : Option String
  newTitle : Option String
  stats : Option VideoStats
  error : Option String
deriving DecidableEq

/-- Observable effects of a run: each outgoing network call and each
`setTimeout` pause. -/
inductive Event where
  | refreshCall : Event
  | statsGet (videoId : String) : Event
  | metaGet (videoId : String) : Event
  | putWrite (u : UpdateData) : Event
  | sleep (ms : Nat) : Event

/-- The environment: the clock and the mocked platform responses.  The
PUT response may depend on how many PUTs happened before (so a write can
fail once and then succeed, or fail persistently). -/
structure Env where
  now : Int
  nowIso : String
  tokenResp : Except JsError TokenResponse
  statsResp : String → Except JsError (List VideoItem)
  metaResp : String → Except JsError (List VideoItem)
  putResp : String → Nat → Except JsError Unit
  randIdx : Fin 3

/-- Number of PUT attempts recorded in a trace. -/
def putCount (tr : List Event) : Nat :=
  tr.countP fun e => match e with
    | Event.putWrite _ => true
    | _ => false

/-- `n.toLocaleString()`: decimal digits with `,` thousands separators.
`groupRev` works on the reversed digit list. -/
def groupRev : List Char → List Char
  | a :: b :: c :: d :: rest => a :: b :: c :: ',' :: groupRev (d :: rest)
  | l => l

def toLocaleString (n : Nat) : String :=
  String.mk (groupRev (toString n).data.reverse).reverse

/-- The three `detailed` title templates of `generateDynamicTitle`. -/
def detailedTemplates (stats : VideoStats) (originalTitle : String) : List String :=
  let views := toLocaleString stats.views
  let likes := toLocaleString stats.likes
  let comments := toLocaleString stats.comments
  [ "This video now has " ++ views ++ " views, " ++ likes ++ " likes, and "
      ++ comments ++ " comments - " ++ originalTitle,
    originalTitle ++ " | This video now has " ++ views ++ " views, " ++ likes
      ++ " likes, " ++ comments ++ " comments",
    "This video now has " ++ views ++ " views, " ++ likes ++ " likes, "
      ++ comments ++ " comments: " ++ originalTitle ]

/-- The template string selected by the random index. -/
def chosenTemplate (stats : VideoStats) (originalTitle : String) (choice : Fin 3) : String :=
  (detailedTemplates stats originalTitle).get (Fin.cast rfl choice)

/-- `generateDynamicTitle(stats, originalTitle)` with the random
template choice made an explicit argument.  `substring(0, 97)` takes the
first 97 code units, modelled on the character list. -/
def generateDynamicTitle (stats : VideoStats) (originalTitle : String) (choice : Fin 3) : String :=
  let randomTemplate := chosenTemplate stats originalTitle choice
  if randomTemplate.length ≤ 100 then randomTemplate
  else String.mk (randomTemplate.data.take 97) ++ "..."

/-- JavaScript falsiness of a nullable string (`null`/missing or `""`). -/
def jsFalsyStr : Option String → Bool
  | none => true
  | some s => s = ""

/-- JavaScript falsiness of a nullable number (`null`/missing or `0`). -/
def jsFalsyInt : Option Int → Bool
  | none => true
  | some n => n = 0

/-- `refreshAccessToken()`: POST to the token endpoint; on success store
the token and `Date.now() + expires_in * 1000`; on failure rethrow the
provider's error. -/
def refreshAccessToken (env : Env) (s : AState) (tr : List Event) :
    Except JsError Unit × AState × List Event :=
  let tr1 := tr ++ [Event.refreshCall]
  match env.tokenResp with
  | Except.ok r =>
      (Except.ok (),
       { s with accessToken := some r.access_token,
                accessTokenExpiry := some (env.now + r.expires_in * 1000) },
       tr1)
  | Except.error e => (Except.error e, s, tr1)

/-- `ensureValidAccessToken()`: refresh when the token or its expiry is
falsy, or when the expiry is less than 300000 ms away. -/
def ensureValidAccessToken (env : Env) (s : AState) (tr : List Event) :
    Except JsError Unit × AState × List Event :=
  if jsFalsyStr s.accessToken || jsFalsyInt s.accessTokenExpiry
      || decide (s.accessTokenExpiry.getD 0 - env.now < 300000) then
    refreshAccessToken env s tr
  else
    (Except.ok (), s, tr)

/-- `getVideoStats(videoId)`: GET the stats, build the `VideoStats`
record (ratios guarded against division by zero), and raise the run's
`peakEngagement` to `likes + comments` when that is larger. -/
def getVideoStats (env : Env) (videoId : String) (s : AState) (tr : List Event) :
    Except JsError VideoStats × AState × List Event :=
  let tr1 := tr ++ [Event.statsGet videoId]
  match env.statsResp videoId with
  | Except.error e => (Except.error e, s, tr1)
  | Except.ok [] =>
      (Except.error { status := none, data := none,
                      message := "Video with ID " ++ videoId ++ " not found" },
       s, tr1)
  | Except.ok (video :: _) =>
      let st := video.statistics
      let stats : VideoStats :=
        { views := st.viewCount
          likes := st.likeCount
          comments := st.commentCount
          currentTitle := video.snippet "title"
          publishedAt := video.snippet "publishedAt"
          likeRatio := if st.viewCount > 0 then (st.likeCount : ℚ) / (st.viewCount : ℚ) else 0
          commentRatio := if st.viewCount > 0 then (st.commentCount : ℚ) / (st.viewCount : ℚ) else 0 }
      let totalEngagement := stats.likes + stats.comments
      let s1 :=
        if totalEngagement > s.stats.peakEngagement then
          { s with stats := { s.stats with peakEngagement := totalEngagement } }
        else s
      (Except.ok stats, s1, tr1)

/-- The write payload: object spread of the fetched snippet, then
`title` overridden with the new title, then `categoryId` rewritten with
its own value. -/
def buildUpdateData (videoId newTitle : String) (snippet : SnippetT) : UpdateData :=
  { id := videoId,
    snippet := fun k =>
      if k = "categoryId" then snippet "categoryId"
      else if k = "title" then some newTitle
      else snippet k }

/-- Marker error returned when the model's retry-depth fuel runs out.
It truncates the source's unbounded 401 retry loop, which in the async
source neither grows the call stack nor surfaces an error (it
diverges); the marker is a model artifact, not program behavior. -/
def fuelExhausted : JsError :=
  { status := none, data := none, message := "model: 401 retry depth exhausted" }

/-- The `try` block body of `updateVideoTitle`: re-fetch the snippet,
fail if the video is missing, build the payload and perform the PUT; on
success increment `updatesPerformed` and set `lastUpdate`. -/
def tryUpdateOnce (env : Env) (videoId newTitle : String) (s : AState) (tr : List Event) :
    Except JsError Unit × AState × List Event :=
  let tr1 := tr ++ [Event.metaGet videoId]
  match env.metaResp videoId with
  | Except.error e => (Except.error e, s, tr1)
  | Except.ok [] =>
      (Except.error { status := none, data := none,
                      message := "Video " ++ videoId ++ " not found for title update" },
       s, tr1)
  | Except.ok (video :: _) =>
      let u := buildUpdateData videoId newTitle video.snippet
      let tr2 := tr1 ++ [Event.putWrite u]
      match env.putResp videoId (putCount tr1) with
      | Except.error e => (Except.error e, s, tr2)
      | Except.ok _ =>
          (Except.ok (),
           { s with stats := { s.stats with
               updatesPerformed := s.stats.updatesPerformed + 1,
               lastUpdate := some env.nowIso } },
           tr2)

/-- `updateVideoTitle(videoId, newTitle)`: ensure a valid token, run the
try block; on a 401 failure refresh the token and recurse on the whole
operation; on any other failure rethrow.  Fuel bounds the source's
unbounded retry recursion; fuel 0 returns the `fuelExhausted` marker
(truncating what in the source is divergence, see its doc). -/
def updateVideoTitle (env : Env) :
    Nat → String → String → AState → List Event →
    Except JsError Bool × AState × List Event
  | 0, _, _, s, tr => (Except.error fuelExhausted, s, tr)
  | Nat.succ fuel, videoId, newTitle, s, tr =>
    match ensureValidAccessToken env s tr with
    | (Except.error e, s1, t1) => (Except.error e, s1, t1)
    | (Except.ok _, s1, t1) =>
      match tryUpdateOnce env videoId newTitle s1 t1 with
      | (Except.ok _, s2, t2) => (Except.ok true, s2, t2)
      | (Except.error e, s2, t2) =>
        if e.status = some 401 then
          match refreshAccessToken env s2 t2 with
          | (Except.error e2, s3, t3) => (Except.error e2, s3, t3)
          | (Except.ok _, s3, t3) => updateVideoTitle env fuel videoId newTitle s3 t3
        else (Except.error e, s2, t2)

/-- `processVideo(videoId, originalTitle)`: fetch stats, render the
candidate title, write only when it differs from the current title, and
catch every error into a `{success:false, videoId, error}` result. -/
def processVideo (env : Env) (fuel : Nat) (videoId originalTitle : String)
    (s : AState) (tr : List Event) : ProcessResult × AState × List Event :=
  match getVideoStats env videoId s tr with
  | (Except.error e, s1, t1) =>
      ({ success := false, videoId := videoId, oldTitle := none, newTitle := none,
         stats := none, error := some e.message }, s1, t1)
  | (Except.ok stats, s1, t1) =>
    let newTitle := generateDynamicTitle stats originalTitle env.randIdx
    if stats.currentTitle = some newTitle then
      ({ success := true, videoId := videoId, oldTitle := stats.currentTitle,
         newTitle := some newTitle, stats := some stats, error := none }, s1, t1)
    else
      match updateVideoTitle env fuel videoId newTitle s1 t1 with
      | (Except.error e, s2, t2) =>
          ({ success := false, videoId := videoId, oldTitle := none, newTitle := none,
             stats := none, error := some e.message }, s2, t2)
      | (Except.ok _, s2, t2) =>
          ({ success := true, videoId := videoId, oldTitle := stats.currentTitle,
             newTitle := some newTitle, stats := some stats, error := none }, s2, t2)

/-- `processMultipleVideos(videos)`: strictly sequential loop over the
tasks, with a 2000 ms pause after every task except the last. -/
def processMultipleVideos (env : Env) (fuel : Nat) :
    List VideoTask → AState → List Event →
    List ProcessResult × AState × List Event
  | [], s, tr => ([], s, tr)
  | v :: rest, s, tr =>
    match processVideo env fuel v.videoId v.originalTitle s tr with
    | (r, s1, t1) =>
      match rest with
      | [] => ([r], s1, t1)
      | _ :: _ =>
        let t2 := t1 ++ [Event.sleep 2000]
        match processMultipleVideos env fuel rest s1 t2 with
        | (rs, s2, t3) => (r :: rs, s2, t3)

/-! ### Trace observations -/

/-- Number of token-endpoint refresh calls recorded in a trace. -/
def refreshCount (tr : List Event) : Nat :=
  tr.countP fun e => match e with
    | Event.refreshCall => true
    | _ => false

def isSleepEvent : Event → Bool
  | Event.sleep _ => true
  | _ => false

def isStatsGetEvent : Event → Bool
  | Event.statsGet _ => true
  | _ => false

/-- Events relevant to batch sequencing: stats fetches and pauses. -/
def isSeqEvent (e : Event) : Bool :=
  isStatsGetEvent e || isSleepEvent e

/-- Projection of a trace to its sequencing events. -/
def seqProj (tr : List Event) : List Event :=
  tr.filter isSeqEvent

/-- The sequencing skeleton the spec demands of a batch over the given
tasks: one stats fetch per task in input order, a single 2000 ms pause
between consecutive tasks, and none after the last. -/
def batchSkeleton : List VideoTask → List Event
  | [] => []
  | [v] => [Event.statsGet v.videoId]
  | v :: v2 :: rest =>
      Event.statsGet v.videoId :: Event.sleep 2000 :: batchSkeleton (v2 :: rest)

/-- A token is held when both the access token and its expiry are
present and truthy. -/
def tokenHeld (s : AState) : Bool :=
  !jsFalsyStr s.accessToken && !jsFalsyInt s.accessTokenExpiry

/-- The refresh condition as the spec words it: no token held, or the
held token's expiry less than 300000 ms away from the current time. -/
def specNeedsRefresh (s : AState) (now : Int) : Bool :=
  !tokenHeld s || decide (s.accessTokenExpiry.getD 0 - now < 300000)

/-! ### Concrete fixtures used by witnesses and counterexamples -/

/-- Fresh automator state: no token, zeroed run stats. -/
def s0 : AState :=
  { accessToken := none, accessTokenExpiry := none,
    stats := { updatesPerformed := 0, lastUpdate := none, peakEngagement := 0 } }

def wSnippet : SnippetT := fun k =>
  if k = "title" then some "Old Title"
  else if k = "categoryId" then some "22"
  else if k = "publishedAt" then some "2020-01-01T00:00:00Z"
  else none

def wVideo : VideoItem :=
  { statistics := { viewCount := 1000, likeCount := 50, commentCount := 10 },
    snippet := wSnippet }

/-- A 401 response error as axios exposes it. -/
def auth401 : JsError :=
  { status := some 401, data := some "Unauthorized",
    message := "Request failed with status code 401" }

/-- A non-auth (400) response error. -/
def badReq400 : JsError :=
  { status := some 400, data := some "invalidTitle",
    message := "Request failed with status code 400" }

def wToken : TokenResponse := { access_token := "tok", expires_in := 3599 }

/-- Environment whose metadata write always fails with 401. -/
def cEnv : Env :=
  { now := 0, nowIso := "2026-01-01T00:00:00Z",
    tokenResp := Except.ok wToken,
    statsResp := fun _ => Except.ok [wVideo],
    metaResp := fun _ => Except.ok [wVideo],
    putResp := fun _ _ => Except.error auth401,
    randIdx := 0 }

/-- Environment where every call succeeds. -/
def okEnv : Env :=
  { now := 0, nowIso := "2026-01-01T00:00:00Z",
    tokenResp := Except.ok wToken,
    statsResp := fun _ => Except.ok [wVideo],
    metaResp := fun _ => Except.ok [wVideo],
    putResp := fun _ _ => Except.ok (),
    randIdx := 0 }

/-- Environment whose write fails with a non-auth 400 error. -/
def failEnv : Env :=
  { okEnv with putResp := fun _ _ => Except.error badReq400 }

/-- Environment whose token endpoint fails. -/
def authFailEnv : Env :=
  { okEnv with
    tokenResp := Except.error
      { status := some 400, data := some "invalid_grant",
        message := "Request failed with status code 400" } }

/-- The rendering of template 0 for `wVideo`'s stats and title `"Demo"`. -/
def skipTitle : String :=
  "This video now has 1,000 views, 50 likes, and 10 comments - Demo"

def skipVideo : VideoItem :=
  { statistics := { viewCount := 1000, likeCount := 50, commentCount := 10 },
    snippet := fun k => if k = "title" then some skipTitle else none }

/-- Environment whose fetched video already carries the title the
renderer will produce (given random index 0). -/
def skipEnv : Env :=
  { okEnv with statsResp := fun _ => Except.ok [skipVideo] }

/-- A long original title, making every template exceed 100 chars. -/
def wLongTitle : String :=
  "xxxxxxxxxxxxxxxxxxxxxxxxxxxxxxxxxxxxxxxxxxxxxxxxxxxxxxxxxxxxxxxxxxxxxx"

def wStats0 : VideoStats :=
  { views := 0, likes := 0, comments := 0, currentTitle := some "Old",
    publishedAt := none, likeRatio := 0, commentRatio := 0 }

/-- The stats record `getVideoStats` builds from `wVideo`. -/
def wStatsOut : VideoStats :=
  { views := 1000, likes := 50, comments := 10,
    currentTitle := some "Old Title", publishedAt := some "2020-01-01T00:00:00Z",
    likeRatio := 50 / 1000, commentRatio := 10 / 1000 }

/-- The stats record `getVideoStats` builds from `skipVideo`. -/
def skipStats : VideoStats :=
  { views := 1000, likes := 50, comments := 10,
    currentTitle := some skipTitle, publishedAt := none,
    likeRatio := 50 / 1000, commentRatio := 10 / 1000 }

/-- `s0` after observing engagement 60. -/
def s0Peak : AState :=
  { s0 with stats := { s0.stats with peakEngagement := 60 } }

/-! ## Theorems -/

theorem strLength_append (a b : String) : (a ++ b).length = a.length + b.length := by
  rcases a with ⟨da⟩
  rcases b with ⟨db⟩
  show (String.mk (da ++ db)).length = (String.mk da).length + (String.mk db).length
  simp

/-- C2: the rendered title never exceeds 100 characters; when the chosen
raw template exceeds 100 characters, the result is the template's first
97 characters followed by three literal dots, and is exactly 100
characters long. -/
theorem generateDynamicTitle_length_bound (stats : VideoStats) (originalTitle : String)
    (choice : Fin 3) :
    (generateDynamicTitle stats originalTitle choice).length ≤ 100 ∧
    ((chosenTemplate stats originalTitle choice).length > 100 →
      generateDynamicTitle stats originalTitle choice =
        String.mk ((chosenTemplate stats originalTitle choice).data.take 97) ++ "..." ∧
      (generateDynamicTitle stats originalTitle choice).length = 100) := by
  unfold generateDynamicTitle
  by_cases h : (chosenTemplate stats originalTitle choice).length ≤ 100
  · simp only [if_pos h]
    exact ⟨h, fun hgt => absurd hgt (by omega)⟩
  · have hgt : 100 < (chosenTemplate stats originalTitle choice).length := by omega
    have hdata : (chosenTemplate stats originalTitle choice).data.length =
        (chosenTemplate stats originalTitle choice).length := rfl
    have h97 : ((chosenTemplate stats originalTitle choice).data.take 97).length = 97 := by
      rw [List.length_take]
      omega
    have hlen : (String.mk ((chosenTemplate stats originalTitle choice).data.take 97)
        ++ "...").length = 100 := by
      rw [strLength_append]
      have hmk : (String.mk ((chosenTemplate stats originalTitle choice).data.take 97)).length
          = ((chosenTemplate stats originalTitle choice).data.take 97).length := rfl
      rw [hmk, h97]
      rfl
    rw [if_neg h]
    exact ⟨le_of_eq hlen, fun _ => ⟨rfl, hlen⟩⟩

set_option maxRecDepth 8192

/-- Witness for C2 at a concrete over-long template. -/
theorem generateDynamicTitle_length_bound_witness :
    (chosenTemplate wStats0 wLongTitle 0).length > 100 ∧
    generateDynamicTitle wStats0 wLongTitle 0 =
      String.mk ((chosenTemplate wStats0 wLongTitle 0).data.take 97) ++ "..." ∧
    (generateDynamicTitle wStats0 wLongTitle 0).length = 100 :=
  ⟨by decide, (generateDynamicTitle_length_bound wStats0 wLongTitle 0).2 (by decide)⟩

/-! ### Token manager -/

theorem refreshAccessToken_trace (env : Env) (s : AState) (tr : List Event) :
    (refreshAccessToken env s tr).2.2 = tr ++ [Event.refreshCall] := by
  cases h : env.tokenResp <;> simp [refreshAccessToken, h]

theorem refreshAccessToken_stats (env : Env) (s : AState) (tr : List Event) :
    ((refreshAccessToken env s tr).2.1).stats = s.stats := by
  cases h : env.tokenResp <;> simp [refreshAccessToken, h]

theorem refreshAccessToken_ok (env : Env) (s : AState) (tr : List Event) (r : TokenResponse)
    (h : env.tokenResp = Except.ok r) :
    refreshAccessToken env s tr =
      (Except.ok (), { s with accessToken := some r.access_token,
                              accessTokenExpiry := some (env.now + r.expires_in * 1000) },
       tr ++ [Event.refreshCall]) := by
  simp [refreshAccessToken, h]

theorem refreshAccessToken_error (env : Env) (s : AState) (tr : List Event) (e : JsError)
    (h : env.tokenResp = Except.error e) :
    refreshAccessToken env s tr = (Except.error e, s, tr ++ [Event.refreshCall]) := by
  simp [refreshAccessToken, h]

/-- The code's refresh condition coincides with the spec's wording. -/
theorem ensure_cond_eq_spec (s : AState) (now : Int) :
    (jsFalsyStr s.accessToken || jsFalsyInt s.accessTokenExpiry
      || decide (s.accessTokenExpiry.getD 0 - now < 300000)) = specNeedsRefresh s now := by
  unfold specNeedsRefresh tokenHeld
  cases jsFalsyStr s.accessToken <;> cases jsFalsyInt s.accessTokenExpiry <;> simp

theorem ensure_of_needsRefresh (env : Env) (s : AState) (tr : List Event)
    (h : specNeedsRefresh s env.now = true) :
    ensureValidAccessToken env s tr = refreshAccessToken env s tr := by
  unfold ensureValidAccessToken
  rw [ensure_cond_eq_spec, h]
  simp

theorem ensure_of_fresh (env : Env) (s : AState) (tr : List Event)
    (h : specNeedsRefresh s env.now = false) :
    ensureValidAccessToken env s tr = (Except.ok (), s, tr) := by
  unfold ensureValidAccessToken
  rw [ensure_cond_eq_spec, h]
  simp

theorem ensure_stats (env : Env) (s : AState) (tr : List Event) :
    ((ensureValidAccessToken env s tr).2.1).stats = s.stats := by
  cases h : specNeedsRefresh s env.now
  · rw [ensure_of_fresh env s tr h]
  · rw [ensure_of_needsRefresh env s tr h]
    exact refreshAccessToken_stats env s tr

theorem refreshCount_append (a b : List Event) :
    refreshCount (a ++ b) = refreshCount a + refreshCount b :=
  List.countP_append _ _ _

theorem putCount_append (a b : List Event) :
    putCount (a ++ b) = putCount a + putCount b :=
  List.countP_append _ _ _

/-- C6: `ensureValidAccessToken` calls refresh exactly when no access
token is held or the held token's expiry is less than 300000 ms away; a
successful refresh stores the new token with expiry `now +
expires_in * 1000`; a failed refresh surfaces the provider's error. -/
theorem ensureValidAccessToken_refresh_policy (env : Env) (s : AState) (tr : List Event) :
    (refreshCount (ensureValidAccessToken env s tr).2.2 =
       refreshCount tr + (if specNeedsRefresh s env.now then 1 else 0)) ∧
    (∀ r, env.tokenResp = Except.ok r → specNeedsRefresh s env.now = true →
       ensureValidAccessToken env s tr =
         (Except.ok (), { s with accessToken := some r.access_token,
                                 accessTokenExpiry := some (env.now + r.expires_in * 1000) },
          tr ++ [Event.refreshCall])) ∧
    (∀ e, env.tokenResp = Except.error e → specNeedsRefresh s env.now = true →
       ensureValidAccessToken env s tr = (Except.error e, s, tr ++ [Event.refreshCall])) ∧
    (specNeedsRefresh s env.now = false →
       ensureValidAccessToken env s tr = (Except.ok (), s, tr)) := by
  refine ⟨?_, ?_, ?_, ensure_of_fresh env s tr⟩
  · cases h : specNeedsRefresh s env.now
    · rw [ensure_of_fresh env s tr h]
      simp
    · rw [ensure_of_needsRefresh env s tr h, refreshAccessToken_trace,
        refreshCount_append]
      simp [refreshCount]
  · intro r hr h
    rw [ensure_of_needsRefresh env s tr h]
    exact refreshAccessToken_ok env s tr r hr
  · intro e he h
    rw [ensure_of_needsRefresh env s tr h]
    exact refreshAccessToken_error env s tr e he

/-- Witness for C6: a fresh state holds no token, so the first call
refreshes and stores the token with the computed expiry. -/
theorem ensureValidAccessToken_refresh_policy_witness :
    specNeedsRefresh s0 okEnv.now = true ∧
    ensureValidAccessToken okEnv s0 [] =
      (Except.ok (), { s0 with accessToken := some wToken.access_token,
                               accessTokenExpiry := some (okEnv.now + wToken.expires_in * 1000) },
       [Event.refreshCall]) := by
  refine ⟨by decide, ?_⟩
  have h := (ensureValidAccessToken_refresh_policy okEnv s0 []).2.1 wToken rfl (by decide)
  simpa using h

/-! ### Stats fetcher -/

theorem getVideoStats_trace (env : Env) (vid : String) (s : AState) (tr : List Event) :
    (getVideoStats env vid s tr).2.2 = tr ++ [Event.statsGet vid] := by
  rcases h : env.statsResp vid with e | l
  · simp [getVideoStats, h]
  · cases l <;> simp [getVideoStats, h]

theorem getVideoStats_peak_le (env : Env) (vid : String) (s : AState) (tr : List Event) :
    s.stats.peakEngagement ≤ (getVideoStats env vid s tr).2.1.stats.peakEngagement := by
  rcases h : env.statsResp vid with e | l
  · simp [getVideoStats, h]
  · rcases l with - | ⟨video, rest⟩
    · simp [getVideoStats, h]
    · simp only [getVideoStats, h]
      split
      · simp only
        omega
      · exact le_refl _

theorem getVideoStats_peak_ok (env : Env) (vid : String) (s : AState) (tr : List Event)
    (stats : VideoStats) (s1 : AState) (t1 : List Event)
    (h : getVideoStats env vid s tr = (Except.ok stats, s1, t1)) :
    s1.stats.peakEngagement = max s.stats.peakEngagement (stats.likes + stats.comments) := by
  rcases he : env.statsResp vid with e | l
  · rw [getVideoStats, he] at h
    simp at h
  · rcases l with - | ⟨video, rest⟩
    · rw [getVideoStats, he] at h
      simp at h
    · rw [getVideoStats, he] at h
      simp only [Prod.mk.injEq, Except.ok.injEq] at h
      obtain ⟨h1, h2, -⟩ := h
      subst h1
      subst h2
      split
      · simp only
        omega
      · simp only
        omega

theorem ratio_facts (a v : Nat) (hv : v > 0) :
    0 ≤ (a : ℚ) / (v : ℚ) ∧ (a ≤ v → (a : ℚ) / (v : ℚ) ≤ 1) := by
  constructor
  · positivity
  · intro hav
    rw [div_le_one (by exact_mod_cast hv)]
    exact_mod_cast hav

/-- C7: for a fetched stats record, `likeRatio` and `commentRatio` are
`likes/views` and `comments/views` when `views > 0` (and then lie in
`[0,1]` whenever the counts are at most `views`), and both are `0` when
`views = 0`. -/
theorem getVideoStats_ratio_spec (env : Env) (vid : String) (s : AState) (tr : List Event)
    (video : VideoItem) (rest : List VideoItem)
    (h : env.statsResp vid = Except.ok (video :: rest)) :
    (getVideoStats env vid s tr).1.isOk = true ∧
    ∀ stats, (getVideoStats env vid s tr).1 = Except.ok stats →
      stats.views = video.statistics.viewCount ∧
      stats.likes = video.statistics.likeCount ∧
      stats.comments = video.statistics.commentCount ∧
      (stats.views > 0 →
        stats.likeRatio = (stats.likes : ℚ) / (stats.views : ℚ) ∧
        stats.commentRatio = (stats.comments : ℚ) / (stats.views : ℚ) ∧
        0 ≤ stats.likeRatio ∧ (stats.likes ≤ stats.views → stats.likeRatio ≤ 1) ∧
        0 ≤ stats.commentRatio ∧ (stats.comments ≤ stats.views → stats.commentRatio ≤ 1)) ∧
      (stats.views = 0 → stats.likeRatio = 0 ∧ stats.commentRatio = 0) := by
  rw [getVideoStats, h]
  dsimp only
  refine ⟨rfl, ?_⟩
  intro stats hst
  simp only [Except.ok.injEq] at hst
  subst hst
  refine ⟨rfl, rfl, rfl, ?_, ?_⟩
  · intro hv
    have hv' : video.statistics.viewCount > 0 := hv
    rw [if_pos hv', if_pos hv']
    obtain ⟨hnn1, hle1⟩ := ratio_facts video.statistics.likeCount video.statistics.viewCount hv'
    obtain ⟨hnn2, hle2⟩ := ratio_facts video.statistics.commentCount video.statistics.viewCount hv'
    exact ⟨rfl, rfl, hnn1, hle1, hnn2, hle2⟩
  · intro hv0
    have hv0' : video.statistics.viewCount = 0 := hv0
    simp [hv0']

/-- Witness for C7 on a concrete fetched record with
views 1000, likes 50, comments 10. -/
theorem getVideoStats_ratio_spec_witness :
    (getVideoStats okEnv "v" s0 []).1.isOk = true ∧
    wStatsOut.views > 0 ∧
    wStatsOut.likeRatio = (wStatsOut.likes : ℚ) / (wStatsOut.views : ℚ) ∧
    0 ≤ wStatsOut.likeRatio ∧ wStatsOut.likeRatio ≤ 1 ∧
    wStatsOut.commentRatio = (wStatsOut.comments : ℚ) / (wStatsOut.views : ℚ) := by
  obtain ⟨hisok, hall⟩ := getVideoStats_ratio_spec okEnv "v" s0 [] wVideo [] rfl
  have hok : (getVideoStats okEnv "v" s0 []).1 = Except.ok wStatsOut := by rfl
  have hfacts := hall wStatsOut hok
  have hpos : wStatsOut.views > 0 := by decide
  obtain ⟨-, -, -, hgt, -⟩ := hfacts
  obtain ⟨hlr, hcr, hnn, hle1, -, -⟩ := hgt hpos
  exact ⟨hisok, hpos, hlr, hnn, hle1 (by decide), hcr⟩

/-! ### Update executor -/

theorem ensure_trace_cases (env : Env) (s : AState) (tr : List Event) :
    (ensureValidAccessToken env s tr).2.2 = tr ∨
    (ensureValidAccessToken env s tr).2.2 = tr ++ [Event.refreshCall] := by
  cases h : specNeedsRefresh s env.now
  · rw [ensure_of_fresh env s tr h]
    exact Or.inl rfl
  · rw [ensure_of_needsRefresh env s tr h]
    exact Or.inr (refreshAccessToken_trace env s tr)

theorem ensure_ok_of_tokenResp_ok (env : Env) (s : AState) (tr : List Event) (r : TokenResponse)
    (htok : env.tokenResp = Except.ok r) :
    ∃ s1 t1, ensureValidAccessToken env s tr = (Except.ok (), s1, t1) ∧
      putCount t1 = putCount tr := by
  cases h : specNeedsRefresh s env.now
  · exact ⟨s, tr, ensure_of_fresh env s tr h, rfl⟩
  · rw [ensure_of_needsRefresh env s tr h, refreshAccessToken_ok env s tr r htok]
    exact ⟨_, _, rfl, by simp [putCount_append, putCount]⟩

theorem tryUpdateOnce_error_state (env : Env) (vid nt : String) (s : AState) (tr : List Event)
    (e : JsError) (s' : AState) (tr' : List Event)
    (h : tryUpdateOnce env vid nt s tr = (Except.error e, s', tr')) : s' = s := by
  rw [tryUpdateOnce] at h
  rcases hm : env.metaResp vid with e2 | l
  · rw [hm] at h
    simp only [Prod.mk.injEq] at h
    exact h.2.1.symm
  · rw [hm] at h
    rcases l with - | ⟨video, rest⟩
    · simp only [Prod.mk.injEq] at h
      exact h.2.1.symm
    · dsimp only at h
      rcases hp : env.putResp vid (putCount (tr ++ [Event.metaGet vid])) with e3 | u
      · rw [hp] at h
        simp only [Prod.mk.injEq] at h
        exact h.2.1.symm
      · rw [hp] at h
        simp at h

theorem tryUpdateOnce_ok_state (env : Env) (vid nt : String) (s : AState) (tr : List Event)
    (u : Unit) (s' : AState) (tr' : List Event)
    (h : tryUpdateOnce env vid nt s tr = (Except.ok u, s', tr')) :
    s' = { s with stats := { s.stats with
             updatesPerformed := s.stats.updatesPerformed + 1,
             lastUpdate := some env.nowIso } } := by
  rw [tryUpdateOnce] at h
  rcases hm : env.metaResp vid with e2 | l
  · rw [hm] at h
    simp at h
  · rw [hm] at h
    rcases l with - | ⟨video, rest⟩
    · simp at h
    · dsimp only at h
      rcases hp : env.putResp vid (putCount (tr ++ [Event.metaGet vid])) with e3 | u2
      · rw [hp] at h
        simp at h
      · rw [hp] at h
        simp only [Prod.mk.injEq] at h
        exact h.2.1.symm

theorem tryUpdateOnce_trace_cases (env : Env) (vid nt : String) (s : AState) (tr : List Event) :
    (tryUpdateOnce env vid nt s tr).2.2 = tr ++ [Event.metaGet vid] ∨
    ∃ video rest, env.metaResp vid = Except.ok (video :: rest) ∧
      (tryUpdateOnce env vid nt s tr).2.2 =
        tr ++ [Event.metaGet vid, Event.putWrite (buildUpdateData vid nt video.snippet)] := by
  rw [tryUpdateOnce]
  rcases hm : env.metaResp vid with e2 | l
  · exact Or.inl rfl
  · rcases l with - | ⟨video, rest⟩
    · exact Or.inl rfl
    · dsimp only
      rcases hp : env.putResp vid (putCount (tr ++ [Event.metaGet vid])) with e3 | u2
      · exact Or.inr ⟨video, rest, rfl, by simp⟩
      · exact Or.inr ⟨video, rest, rfl, by simp⟩


theorem tryUpdateOnce_put_fail (env : Env) (vid nt : String) (s : AState) (tr : List Event)
    (video : VideoItem) (rest : List VideoItem) (e : JsError)
    (hm : env.metaResp vid = Except.ok (video :: rest))
    (hp : env.putResp vid (putCount (tr ++ [Event.metaGet vid])) = Except.error e) :
    tryUpdateOnce env vid nt s tr =
      (Except.error e, s,
       (tr ++ [Event.metaGet vid]) ++ [Event.putWrite (buildUpdateData vid nt video.snippet)]) := by
  rw [tryUpdateOnce, hm]
  dsimp only
  rw [hp]

/-- Master state lemma for `updateVideoTitle`: on failure the run stats
are untouched, on success the counter is bumped once and the timestamp
set; `peakEngagement` is never touched. -/
theorem updateVideoTitle_stats_master (env : Env) (fuel : Nat) :
    ∀ vid nt s tr,
      (∀ e s' tr', updateVideoTitle env fuel vid nt s tr = (Except.error e, s', tr') →
         s'.stats.updatesPerformed = s.stats.updatesPerformed ∧
         s'.stats.lastUpdate = s.stats.lastUpdate ∧
         s'.stats.peakEngagement = s.stats.peakEngagement) ∧
      (∀ b s' tr', updateVideoTitle env fuel vid nt s tr = (Except.ok b, s', tr') →
         s'.stats.updatesPerformed = s.stats.updatesPerformed + 1 ∧
         s'.stats.lastUpdate = some env.nowIso ∧
         s'.stats.peakEngagement = s.stats.peakEngagement) := by
  induction fuel with
  | zero =>
    intro vid nt s tr
    constructor
    · intro e s' tr' h
      rw [updateVideoTitle] at h
      simp only [Prod.mk.injEq] at h
      rw [← h.2.1]
      exact ⟨rfl, rfl, rfl⟩
    · intro b s' tr' h
      rw [updateVideoTitle] at h
      simp at h
  | succ fuel ih =>
    intro vid nt s tr
    rcases h1 : ensureValidAccessToken env s tr with ⟨r1, s1, t1⟩
    have hs1 : s1.stats = s.stats := by
      have hx := ensure_stats env s tr
      rw [h1] at hx
      exact hx
    cases r1 with
    | error e1 =>
      constructor
      · intro e s' tr' h
        simp only [updateVideoTitle, h1] at h
        simp only [Prod.mk.injEq] at h
        rw [← h.2.1, hs1]
        exact ⟨rfl, rfl, rfl⟩
      · intro b s' tr' h
        simp only [updateVideoTitle, h1] at h
        simp at h
    | ok u1 =>
      rcases h2 : tryUpdateOnce env vid nt s1 t1 with ⟨r2, s2, t2⟩
      cases r2 with
      | ok u2 =>
        have hs2 := tryUpdateOnce_ok_state env vid nt s1 t1 u2 s2 t2 h2
        constructor
        · intro e s' tr' h
          simp only [updateVideoTitle, h1, h2] at h
          simp at h
        · intro b s' tr' h
          simp only [updateVideoTitle, h1, h2] at h
          simp only [Prod.mk.injEq] at h
          rw [← h.2.1, hs2]
          simp [hs1]
      | error e2 =>
        have hs2 : s2 = s1 := tryUpdateOnce_error_state env vid nt s1 t1 e2 s2 t2 h2
        by_cases h401 : e2.status = some 401
        · rcases h3 : refreshAccessToken env s2 t2 with ⟨r3, s3, t3⟩
          have hs3 : s3.stats = s2.stats := by
            have hx := refreshAccessToken_stats env s2 t2
            rw [h3] at hx
            exact hx
          cases r3 with
          | error e3 =>
            constructor
            · intro e s' tr' h
              simp only [updateVideoTitle, h1, h2, if_pos h401, h3] at h
              simp only [Prod.mk.injEq] at h
              rw [← h.2.1, hs3, hs2, hs1]
              exact ⟨rfl, rfl, rfl⟩
            · intro b s' tr' h
              simp only [updateVideoTitle, h1, h2, if_pos h401, h3] at h
              simp at h
          | ok u3 =>
            constructor
            · intro e s' tr' h
              simp only [updateVideoTitle, h1, h2, if_pos h401, h3] at h
              have hrec := ((ih vid nt s3 t3).1) e s' tr' h
              rw [hs3, hs2, hs1] at hrec
              exact hrec
            · intro b s' tr' h
              simp only [updateVideoTitle, h1, h2, if_pos h401, h3] at h
              have hrec := ((ih vid nt s3 t3).2) b s' tr' h
              rw [hs3, hs2, hs1] at hrec
              exact hrec
        · constructor
          · intro e s' tr' h
            simp only [updateVideoTitle, h1, h2, if_neg h401] at h
            simp only [Prod.mk.injEq] at h
            rw [← h.2.1, hs2, hs1]
            exact ⟨rfl, rfl, rfl⟩
          · intro b s' tr' h
            simp only [updateVideoTitle, h1, h2, if_neg h401] at h
            simp at h

theorem updateVideoTitle_peak (env : Env) (fuel : Nat) (vid nt : String)
    (s : AState) (tr : List Event) :
    (updateVideoTitle env fuel vid nt s tr).2.1.stats.peakEngagement
      = s.stats.peakEngagement := by
  rcases h : updateVideoTitle env fuel vid nt s tr with ⟨r, s', tr'⟩
  cases r with
  | error e => exact ((updateVideoTitle_stats_master env fuel vid nt s tr).1 e s' tr' h).2.2
  | ok b => exact ((updateVideoTitle_stats_master env fuel vid nt s tr).2 b s' tr' h).2.2

/-- C10: if `updateVideoTitle` fails for any reason, `updatesPerformed`
and `lastUpdate` are left unchanged; they are mutated (counter +1,
timestamp set) only when the write has completed successfully. -/
theorem updateVideoTitle_runStats_on_failure (env : Env) (fuel : Nat) (vid nt : String)
    (s : AState) (tr : List Event) :
    (∀ e s' tr', updateVideoTitle env fuel vid nt s tr = (Except.error e, s', tr') →
       s'.stats.updatesPerformed = s.stats.updatesPerformed ∧
       s'.stats.lastUpdate = s.stats.lastUpdate) ∧
    (∀ b s' tr', updateVideoTitle env fuel vid nt s tr = (Except.ok b, s', tr') →
       s'.stats.updatesPerformed = s.stats.updatesPerformed + 1 ∧
       s'.stats.lastUpdate = some env.nowIso) := by
  constructor
  · intro e s' tr' h
    have hx := (updateVideoTitle_stats_master env fuel vid nt s tr).1 e s' tr' h
    exact ⟨hx.1, hx.2.1⟩
  · intro b s' tr' h
    have hx := (updateVideoTitle_stats_master env fuel vid nt s tr).2 b s' tr' h
    exact ⟨hx.1, hx.2.1⟩

/-- Witness for C10: a 400 write failure leaves the counters untouched. -/
theorem updateVideoTitle_runStats_on_failure_witness :
    ((updateVideoTitle failEnv 1 "v" "t" s0 []).2.1).stats.updatesPerformed
        = s0.stats.updatesPerformed ∧
    ((updateVideoTitle failEnv 1 "v" "t" s0 []).2.1).stats.lastUpdate
        = s0.stats.lastUpdate :=
  (updateVideoTitle_runStats_on_failure failEnv 1 "v" "t" s0 []).1 badReq400
    (updateVideoTitle failEnv 1 "v" "t" s0 []).2.1
    (updateVideoTitle failEnv 1 "v" "t" s0 []).2.2 (by rfl)

theorem putCount_metaGet (v : String) : putCount [Event.metaGet v] = 0 := rfl

theorem putCount_putWrite (u : UpdateData) : putCount [Event.putWrite u] = 1 := rfl

theorem putCount_refresh : putCount [Event.refreshCall] = 0 := rfl

/-- Master payload lemma: every PUT event `updateVideoTitle` adds to the
trace carries exactly the payload built from the re-fetched snippet. -/
theorem updateVideoTitle_puts (env : Env) (fuel : Nat) :
    ∀ vid nt s tr video rest,
      env.metaResp vid = Except.ok (video :: rest) →
      ∀ u, Event.putWrite u ∈ (updateVideoTitle env fuel vid nt s tr).2.2 →
        Event.putWrite u ∈ tr ∨ u = buildUpdateData vid nt video.snippet := by
  induction fuel with
  | zero =>
    intro vid nt s tr video rest hm u hu
    rw [updateVideoTitle] at hu
    exact Or.inl hu
  | succ fuel ih =>
    intro vid nt s tr video rest hm u hu
    rcases h1 : ensureValidAccessToken env s tr with ⟨r1, s1, t1⟩
    have ht1 : Event.putWrite u ∈ t1 → Event.putWrite u ∈ tr := by
      intro hx
      rcases ensure_trace_cases env s tr with hc | hc <;> rw [h1] at hc <;> dsimp at hc
      · rwa [hc] at hx
      · rw [hc] at hx
        rcases List.mem_append.1 hx with h3 | h3
        · exact h3
        · simp at h3
    cases r1 with
    | error e1 =>
      simp only [updateVideoTitle, h1] at hu
      exact Or.inl (ht1 hu)
    | ok u1 =>
      rcases h2 : tryUpdateOnce env vid nt s1 t1 with ⟨r2, s2, t2⟩
      have ht2 : Event.putWrite u ∈ t2 →
          Event.putWrite u ∈ t1 ∨ u = buildUpdateData vid nt video.snippet := by
        intro hx
        rcases tryUpdateOnce_trace_cases env vid nt s1 t1 with hc | ⟨video2, rest2, hm2, hc⟩
        · rw [h2] at hc
          dsimp at hc
          rw [hc] at hx
          rcases List.mem_append.1 hx with h3 | h3
          · exact Or.inl h3
          · simp at h3
        · rw [hm] at hm2
          have hveq : video = video2 := by
            simp only [Except.ok.injEq, List.cons.injEq] at hm2
            exact hm2.1
          rw [h2] at hc
          dsimp at hc
          rw [hc] at hx
          rcases List.mem_append.1 hx with h3 | h3
          · exact Or.inl h3
          · simp only [List.mem_cons, List.mem_singleton] at h3
            rcases h3 with h3 | h3
            · exact absurd h3 (by simp)
            · rcases h3 with h3 | h3
              · have : u = buildUpdateData vid nt video2.snippet := by
                  injection h3
                exact Or.inr (by rw [hveq]; exact this)
              · simp at h3
      cases r2 with
      | ok u2 =>
        simp only [updateVideoTitle, h1, h2] at hu
        rcases ht2 hu with h3 | h3
        · exact Or.inl (ht1 h3)
        · exact Or.inr h3
      | error e2 =>
        by_cases h401 : e2.status = some 401
        · rcases h3 : refreshAccessToken env s2 t2 with ⟨r3, s3, t3⟩
          have ht3 : Event.putWrite u ∈ t3 → Event.putWrite u ∈ t2 := by
            have hc := refreshAccessToken_trace env s2 t2
            rw [h3] at hc
            dsimp at hc
            intro hx
            rw [hc] at hx
            rcases List.mem_append.1 hx with h4 | h4
            · exact h4
            · simp at h4
          cases r3 with
          | error e3 =>
            simp only [updateVideoTitle, h1, h2, if_pos h401, h3] at hu
            rcases ht2 (ht3 hu) with h4 | h4
            · exact Or.inl (ht1 h4)
            · exact Or.inr h4
          | ok u3 =>
            simp only [updateVideoTitle, h1, h2, if_pos h401, h3] at hu
            rcases ih vid nt s3 t3 video rest hm u hu with h4 | h4
            · rcases ht2 (ht3 h4) with h5 | h5
              · exact Or.inl (ht1 h5)
              · exact Or.inr h5
            · exact Or.inr h4
        · simp only [updateVideoTitle, h1, h2, if_neg h401] at hu
          rcases ht2 hu with h3 | h3
          · exact Or.inl (ht1 h3)
          · exact Or.inr h3

/-- C9: every PUT payload a run of `updateVideoTitle` sends carries the
video id, the new title, and every other field of the re-fetched
snippet unchanged. -/
theorem updateVideoTitle_payload_frame (env : Env) (fuel : Nat) (vid nt : String)
    (s : AState) (tr : List Event) (video : VideoItem) (rest : List VideoItem)
    (hm : env.metaResp vid = Except.ok (video :: rest)) (u : UpdateData)
    (hu : Event.putWrite u ∈ (updateVideoTitle env fuel vid nt s tr).2.2)
    (hnew : Event.putWrite u ∉ tr) :
    u.id = vid ∧ u.snippet "title" = some nt ∧
    ∀ k, k ≠ "title" → u.snippet k = video.snippet k := by
  rcases updateVideoTitle_puts env fuel vid nt s tr video rest hm u hu with h | h
  · exact absurd h hnew
  · subst h
    refine ⟨rfl, by simp [buildUpdateData], ?_⟩
    intro k hk
    by_cases hc : k = "categoryId"
    · subst hc
      simp [buildUpdateData]
    · simp [buildUpdateData, hc, hk]

/-- Witness for C9 on a concrete successful run. -/
theorem updateVideoTitle_payload_frame_witness :
    (buildUpdateData "v" "t" wSnippet).id = "v" ∧
    (buildUpdateData "v" "t" wSnippet).snippet "title" = some "t" ∧
    (buildUpdateData "v" "t" wSnippet).snippet "publishedAt" = wSnippet "publishedAt" := by
  have htr : (updateVideoTitle okEnv 1 "v" "t" s0 []).2.2 =
      [Event.refreshCall, Event.metaGet "v",
       Event.putWrite (buildUpdateData "v" "t" wSnippet)] := rfl
  have h := updateVideoTitle_payload_frame okEnv 1 "v" "t" s0 [] wVideo [] rfl
    (buildUpdateData "v" "t" wSnippet)
    (by
      rw [htr]
      exact List.mem_cons.2 (Or.inr (List.mem_cons.2 (Or.inr (List.mem_cons_self _ _)))))
    (List.not_mem_nil _)
  exact ⟨h.1, h.2.1, h.2.2 "publishedAt" (by decide)⟩

/-- C1 (amended): a 401-class write failure always triggers a token
refresh and a retry of the whole operation, with no bound — a second
auth failure leads to a third attempt instead of surfacing an
`UpdateError`.  Under persistent 401 responses the code makes exactly
one write attempt per retry depth and never returns success at any
depth (in the async source this is a livelock: the retry resumes after
awaits on an unwound stack, so no error reaches the caller). -/
theorem updateVideoTitle_retries_unbounded (env : Env) (vid nt : String) (r : TokenResponse)
    (e : JsError) (video : VideoItem) (rest : List VideoItem)
    (htok : env.tokenResp = Except.ok r)
    (hmeta : env.metaResp vid = Except.ok (video :: rest))
    (hput : ∀ n, env.putResp vid n = Except.error e)
    (h401 : e.status = some 401) :
    ∀ fuel s tr,
      putCount (updateVideoTitle env fuel vid nt s tr).2.2 = putCount tr + fuel ∧
      ∀ b, (updateVideoTitle env fuel vid nt s tr).1 ≠ Except.ok b := by
  intro fuel
  induction fuel with
  | zero =>
    intro s tr
    rw [updateVideoTitle]
    refine ⟨rfl, ?_⟩
    intro b h
    simp at h
  | succ fuel ih =>
    intro s tr
    obtain ⟨s1, t1, h1, hpc1⟩ := ensure_ok_of_tokenResp_ok env s tr r htok
    have h2 := tryUpdateOnce_put_fail env vid nt s1 t1 video rest e hmeta (hput _)
    have h3 := refreshAccessToken_ok env s1
      ((t1 ++ [Event.metaGet vid]) ++ [Event.putWrite (buildUpdateData vid nt video.snippet)])
      r htok
    simp only [updateVideoTitle, h1, h2, if_pos h401, h3]
    obtain ⟨ha, hb⟩ := ih
      { s1 with accessToken := some r.access_token,
                accessTokenExpiry := some (env.now + r.expires_in * 1000) }
      (((t1 ++ [Event.metaGet vid]) ++ [Event.putWrite (buildUpdateData vid nt video.snippet)])
        ++ [Event.refreshCall])
    refine ⟨?_, hb⟩
    rw [ha, putCount_append, putCount_append, putCount_append,
      putCount_metaGet, putCount_putWrite, putCount_refresh, hpc1]
    omega

/-- Witness for the amended C1 at a concrete always-401 environment. -/
theorem updateVideoTitle_retries_unbounded_witness :
    putCount (updateVideoTitle cEnv 3 "v2" "t2" s0 []).2.2 = putCount ([] : List Event) + 3 ∧
    (updateVideoTitle cEnv 3 "v2" "t2" s0 []).1 ≠ Except.ok true :=
  ⟨(updateVideoTitle_retries_unbounded cEnv "v2" "t2" wToken auth401 wVideo []
      rfl rfl (fun _ => rfl) rfl 3 s0 []).1,
   (updateVideoTitle_retries_unbounded cEnv "v2" "t2" wToken auth401 wVideo []
      rfl rfl (fun _ => rfl) rfl 3 s0 []).2 true⟩

/-- C1 counterexample: with the write failing 401 persistently, the code
performs a third (indeed a fifth) write attempt instead of stopping
after the single permitted retry. -/
theorem updateVideoTitle_makes_third_attempt :
    2 < putCount (updateVideoTitle cEnv 5 "v" "t" s0 []).2.2 ∧
    putCount (updateVideoTitle cEnv 5 "v" "t" s0 []).2.2 = 5 := by
  have h : putCount (updateVideoTitle cEnv 5 "v" "t" s0 []).2.2 = 5 := rfl
  exact ⟨by rw [h]; omega, h⟩

/-! ### Batch orchestrator -/

theorem putCount_statsGet (v : String) : putCount [Event.statsGet v] = 0 := rfl

/-- C3: when the rendered title equals the platform's current title,
`processVideo` performs no write call and reports success with
`newTitle = oldTitle`; otherwise it invokes `updateVideoTitle` and
reports its outcome. -/
theorem processVideo_skip_when_title_unchanged (env : Env) (fuel : Nat) (vid ot : String)
    (s : AState) (tr : List Event) (stats : VideoStats) (s1 : AState) (t1 : List Event)
    (hfetch : getVideoStats env vid s tr = (Except.ok stats, s1, t1)) :
    (stats.currentTitle = some (generateDynamicTitle stats ot env.randIdx) →
       processVideo env fuel vid ot s tr =
         ({ success := true, videoId := vid, oldTitle := stats.currentTitle,
            newTitle := some (generateDynamicTitle stats ot env.randIdx),
            stats := some stats, error := none }, s1, t1) ∧
       putCount (processVideo env fuel vid ot s tr).2.2 = putCount tr) ∧
    (stats.currentTitle ≠ some (generateDynamicTitle stats ot env.randIdx) →
       (∀ e s2 t2,
          updateVideoTitle env fuel vid (generateDynamicTitle stats ot env.randIdx) s1 t1
              = (Except.error e, s2, t2) →
          processVideo env fuel vid ot s tr =
            ({ success := false, videoId := vid, oldTitle := none, newTitle := none,
               stats := none, error := some e.message }, s2, t2)) ∧
       (∀ b s2 t2,
          updateVideoTitle env fuel vid (generateDynamicTitle stats ot env.randIdx) s1 t1
              = (Except.ok b, s2, t2) →
          processVideo env fuel vid ot s tr =
            ({ success := true, videoId := vid, oldTitle := stats.currentTitle,
               newTitle := some (generateDynamicTitle stats ot env.randIdx),
               stats := some stats, error := none }, s2, t2))) := by
  have ht1 : t1 = tr ++ [Event.statsGet vid] := by
    have hx := getVideoStats_trace env vid s tr
    rw [hfetch] at hx
    exact hx
  constructor
  · intro heq
    have hpv : processVideo env fuel vid ot s tr =
        ({ success := true, videoId := vid, oldTitle := stats.currentTitle,
           newTitle := some (generateDynamicTitle stats ot env.randIdx),
           stats := some stats, error := none }, s1, t1) := by
      rw [processVideo, hfetch]
      dsimp only
      rw [if_pos heq]
    refine ⟨hpv, ?_⟩
    rw [hpv]
    dsimp only
    rw [ht1, putCount_append, putCount_statsGet]
    omega
  · intro hne
    constructor
    · intro e s2 t2 hupd
      rw [processVideo, hfetch]
      dsimp only
      rw [if_neg hne, hupd]
    · intro b s2 t2 hupd
      rw [processVideo, hfetch]
      dsimp only
      rw [if_neg hne, hupd]

/-- Witness for C3 on an environment whose fetched title already equals
the rendered one: no write, success, `newTitle = oldTitle`. -/
theorem processVideo_skip_witness :
    skipStats.currentTitle = some (generateDynamicTitle skipStats "Demo" skipEnv.randIdx) ∧
    processVideo skipEnv 1 "v" "Demo" s0 [] =
      ({ success := true, videoId := "v", oldTitle := skipStats.currentTitle,
         newTitle := some (generateDynamicTitle skipStats "Demo" skipEnv.randIdx),
         stats := some skipStats, error := none },
       s0Peak, [Event.statsGet "v"]) ∧
    putCount (processVideo skipEnv 1 "v" "Demo" s0 []).2.2 = putCount ([] : List Event) := by
  have heq : skipStats.currentTitle
      = some (generateDynamicTitle skipStats "Demo" skipEnv.randIdx) := by decide
  have h := (processVideo_skip_when_title_unchanged skipEnv 1 "v" "Demo" s0 []
    skipStats s0Peak [Event.statsGet "v"] (by rfl)).1 heq
  exact ⟨heq, h.1, h.2⟩

theorem processVideo_shape (env : Env) (fuel : Nat) (vid ot : String)
    (s : AState) (tr : List Event) :
    (processVideo env fuel vid ot s tr).1.videoId = vid ∧
    ((processVideo env fuel vid ot s tr).1.success = true ∧
       (processVideo env fuel vid ot s tr).1.error = none ∨
     (processVideo env fuel vid ot s tr).1.success = false ∧
       ∃ m, (processVideo env fuel vid ot s tr).1.error = some m) := by
  rw [processVideo]
  rcases h : getVideoStats env vid s tr with ⟨r, s1, t1⟩
  cases r with
  | error e => exact ⟨rfl, Or.inr ⟨rfl, e.message, rfl⟩⟩
  | ok stats =>
    dsimp only
    split
    · exact ⟨rfl, Or.inl ⟨rfl, rfl⟩⟩
    · rcases h2 : updateVideoTitle env fuel vid
          (generateDynamicTitle stats ot env.randIdx) s1 t1 with ⟨r2, s2, t2⟩
      cases r2 with
      | error e => exact ⟨rfl, Or.inr ⟨rfl, e.message, rfl⟩⟩
      | ok b => exact ⟨rfl, Or.inl ⟨rfl, rfl⟩⟩

theorem pmv_nil (env : Env) (fuel : Nat) (s : AState) (tr : List Event) :
    processMultipleVideos env fuel [] s tr = ([], s, tr) := rfl

theorem pmv_single (env : Env) (fuel : Nat) (v : VideoTask) (s : AState) (tr : List Event) :
    processMultipleVideos env fuel [v] s tr =
      ([(processVideo env fuel v.videoId v.originalTitle s tr).1],
       (processVideo env fuel v.videoId v.originalTitle s tr).2.1,
       (processVideo env fuel v.videoId v.originalTitle s tr).2.2) := rfl

theorem pmv_cons₂ (env : Env) (fuel : Nat) (v v2 : VideoTask) (rest : List VideoTask)
    (s : AState) (tr : List Event) :
    processMultipleVideos env fuel (v :: v2 :: rest) s tr =
      ((processVideo env fuel v.videoId v.originalTitle s tr).1 ::
         (processMultipleVideos env fuel (v2 :: rest)
           (processVideo env fuel v.videoId v.originalTitle s tr).2.1
           ((processVideo env fuel v.videoId v.originalTitle s tr).2.2
             ++ [Event.sleep 2000])).1,
       (processMultipleVideos env fuel (v2 :: rest)
         (processVideo env fuel v.videoId v.originalTitle s tr).2.1
         ((processVideo env fuel v.videoId v.originalTitle s tr).2.2
           ++ [Event.sleep 2000])).2.1,
       (processMultipleVideos env fuel (v2 :: rest)
         (processVideo env fuel v.videoId v.originalTitle s tr).2.1
         ((processVideo env fuel v.videoId v.originalTitle s tr).2.2
           ++ [Event.sleep 2000])).2.2) := rfl

theorem batch_results (env : Env) (fuel : Nat) :
    ∀ (videos : List VideoTask) (s : AState) (tr : List Event),
      (processMultipleVideos env fuel videos s tr).1.length = videos.length ∧
      ((processMultipleVideos env fuel videos s tr).1.map fun r => r.videoId)
        = (videos.map fun v => v.videoId) ∧
      ∀ r ∈ (processMultipleVideos env fuel videos s tr).1,
        (r.success = true ∧ r.error = none) ∨
        (r.success = false ∧ ∃ m, r.error = some m) := by
  intro videos
  induction videos with
  | nil =>
    intro s tr
    refine ⟨rfl, rfl, ?_⟩
    intro r hr
    simp [processMultipleVideos] at hr
  | cons v rest ih =>
    intro s tr
    rcases hp : processVideo env fuel v.videoId v.originalTitle s tr with ⟨r, s1, t1⟩
    have hshape := processVideo_shape env fuel v.videoId v.originalTitle s tr
    rw [hp] at hshape
    dsimp only at hshape
    cases rest with
    | nil =>
      rw [pmv_single, hp]
      dsimp only
      refine ⟨rfl, ?_, ?_⟩
      · simp [hshape.1]
      · intro r2 hr2
        simp only [List.mem_singleton] at hr2
        subst hr2
        exact hshape.2
    | cons v2 rest2 =>
      rw [pmv_cons₂, hp]
      dsimp only
      rcases hb : processMultipleVideos env fuel (v2 :: rest2) s1
          (t1 ++ [Event.sleep 2000]) with ⟨rs, s2, t3⟩
      have hih := ih s1 (t1 ++ [Event.sleep 2000])
      rw [hb] at hih
      dsimp only at hih
      dsimp only
      refine ⟨?_, ?_, ?_⟩
      · simp [hih.1]
      · simp [hih.2.1, hshape.1]
      · intro r2 hr2
        rcases List.mem_cons.1 hr2 with h | h
        · subst h
          exact hshape.2
        · exact hih.2.2 r2 h

/-- C4: `processVideo` never raises — every failure is mapped to a
`{success:false, videoId, error}` result — and `processMultipleVideos`
returns one result per input task, never aborting the batch. -/
theorem processVideo_never_raises_batch_isolated (env : Env) (fuel : Nat) :
    (∀ vid ot s tr,
       (processVideo env fuel vid ot s tr).1.videoId = vid ∧
       ((processVideo env fuel vid ot s tr).1.success = true ∧
          (processVideo env fuel vid ot s tr).1.error = none ∨
        (processVideo env fuel vid ot s tr).1.success = false ∧
          ∃ m, (processVideo env fuel vid ot s tr).1.error = some m)) ∧
    (∀ videos s tr,
       (processMultipleVideos env fuel videos s tr).1.length = videos.length ∧
       ((processMultipleVideos env fuel videos s tr).1.map fun r => r.videoId)
         = (videos.map fun v => v.videoId) ∧
       ∀ r ∈ (processMultipleVideos env fuel videos s tr).1,
         (r.success = true ∧ r.error = none) ∨
         (r.success = false ∧ ∃ m, r.error = some m)) :=
  ⟨fun vid ot s tr => processVideo_shape env fuel vid ot s tr,
   fun videos s tr => batch_results env fuel videos s tr⟩

theorem seqProj_append (a b : List Event) : seqProj (a ++ b) = seqProj a ++ seqProj b := by
  simp [seqProj]

theorem seqProj_refreshE : seqProj [Event.refreshCall] = [] := rfl

theorem seqProj_metaGetE (v : String) : seqProj [Event.metaGet v] = [] := rfl

theorem seqProj_statsGetE (v : String) :
    seqProj [Event.statsGet v] = [Event.statsGet v] := rfl

theorem seqProj_sleepE (n : Nat) : seqProj [Event.sleep n] = [Event.sleep n] := rfl

theorem seqProj_ensure (env : Env) (s : AState) (tr : List Event) :
    seqProj (ensureValidAccessToken env s tr).2.2 = seqProj tr := by
  rcases ensure_trace_cases env s tr with h | h
  · rw [h]
  · rw [h, seqProj_append, seqProj_refreshE, List.append_nil]

theorem seqProj_refreshAccessToken (env : Env) (s : AState) (tr : List Event) :
    seqProj (refreshAccessToken env s tr).2.2 = seqProj tr := by
  rw [refreshAccessToken_trace, seqProj_append, seqProj_refreshE, List.append_nil]

theorem seqProj_tryUpdateOnce (env : Env) (vid nt : String) (s : AState) (tr : List Event) :
    seqProj (tryUpdateOnce env vid nt s tr).2.2 = seqProj tr := by
  rcases tryUpdateOnce_trace_cases env vid nt s tr with h | ⟨video, rest, hm, h⟩
  · rw [h, seqProj_append, seqProj_metaGetE, List.append_nil]
  · rw [h, seqProj_append]
    have h2 : seqProj [Event.metaGet vid,
        Event.putWrite (buildUpdateData vid nt video.snippet)] = [] := rfl
    rw [h2, List.append_nil]

theorem seqProj_updateVideoTitle (env : Env) (fuel : Nat) :
    ∀ vid nt s tr, seqProj (updateVideoTitle env fuel vid nt s tr).2.2 = seqProj tr := by
  induction fuel with
  | zero =>
    intro vid nt s tr
    rw [updateVideoTitle]
  | succ fuel ih =>
    intro vid nt s tr
    rcases h1 : ensureValidAccessToken env s tr with ⟨r1, s1, t1⟩
    have e1 : seqProj t1 = seqProj tr := by
      have hx := seqProj_ensure env s tr
      rw [h1] at hx
      exact hx
    cases r1 with
    | error e =>
      simp only [updateVideoTitle, h1]
      exact e1
    | ok u1 =>
      rcases h2 : tryUpdateOnce env vid nt s1 t1 with ⟨r2, s2, t2⟩
      have e2 : seqProj t2 = seqProj t1 := by
        have hx := seqProj_tryUpdateOnce env vid nt s1 t1
        rw [h2] at hx
        exact hx
      cases r2 with
      | ok u2 =>
        simp only [updateVideoTitle, h1, h2]
        rw [e2, e1]
      | error e2' =>
        by_cases h401 : e2'.status = some 401
        · rcases h3 : refreshAccessToken env s2 t2 with ⟨r3, s3, t3⟩
          have e3 : seqProj t3 = seqProj t2 := by
            have hx := seqProj_refreshAccessToken env s2 t2
            rw [h3] at hx
            exact hx
          cases r3 with
          | error e3' =>
            simp only [updateVideoTitle, h1, h2, if_pos h401, h3]
            rw [e3, e2, e1]
          | ok u3 =>
            simp only [updateVideoTitle, h1, h2, if_pos h401, h3]
            rw [ih vid nt s3 t3, e3, e2, e1]
        · simp only [updateVideoTitle, h1, h2, if_neg h401]
          rw [e2, e1]

theorem seqProj_processVideo (env : Env) (fuel : Nat) (vid ot : String)
    (s : AState) (tr : List Event) :
    seqProj (processVideo env fuel vid ot s tr).2.2 = seqProj tr ++ [Event.statsGet vid] := by
  rw [processVideo]
  rcases h : getVideoStats env vid s tr with ⟨r, s1, t1⟩
  have e1 : seqProj t1 = seqProj tr ++ [Event.statsGet vid] := by
    have hx := getVideoStats_trace env vid s tr
    rw [h] at hx
    dsimp at hx
    rw [hx, seqProj_append, seqProj_statsGetE]
  cases r with
  | error e => exact e1
  | ok stats =>
    dsimp only
    split
    · exact e1
    · rcases h2 : updateVideoTitle env fuel vid
          (generateDynamicTitle stats ot env.randIdx) s1 t1 with ⟨r2, s2, t2⟩
      have e2 : seqProj t2 = seqProj t1 := by
        have hx := seqProj_updateVideoTitle env fuel vid
          (generateDynamicTitle stats ot env.randIdx) s1 t1
        rw [h2] at hx
        exact hx
      cases r2 with
      | error e =>
        dsimp only
        rw [e2, e1]
      | ok b =>
        dsimp only
        rw [e2, e1]

theorem countP_sleep_seqProj : ∀ x : List Event,
    (seqProj x).countP isSleepEvent = x.countP isSleepEvent
  | [] => rfl
  | e :: x => by
    have ih := countP_sleep_seqProj x
    simp only [seqProj] at ih ⊢
    cases e <;>
      simp [List.filter_cons, List.countP_cons, isSeqEvent, isStatsGetEvent,
        isSleepEvent, ih]

theorem countSleep_batchSkeleton : ∀ videos : List VideoTask,
    (batchSkeleton videos).countP isSleepEvent = videos.length - 1
  | [] => rfl
  | [_] => rfl
  | v :: v2 :: rest => by
    have ih := countSleep_batchSkeleton (v2 :: rest)
    simp only [batchSkeleton, List.countP_cons, ih, List.length_cons]
    norm_num [isSleepEvent, isStatsGetEvent]

theorem batch_seqProj (env : Env) (fuel : Nat) :
    ∀ (videos : List VideoTask) (s : AState) (tr : List Event),
      seqProj (processMultipleVideos env fuel videos s tr).2.2
        = seqProj tr ++ batchSkeleton videos := by
  intro videos
  induction videos with
  | nil =>
    intro s tr
    rw [pmv_nil]
    simp [batchSkeleton]
  | cons v rest ih =>
    intro s tr
    cases rest with
    | nil =>
      rw [pmv_single]
      dsimp only
      rw [seqProj_processVideo]
      rfl
    | cons v2 rest2 =>
      rw [pmv_cons₂]
      dsimp only
      rw [ih, seqProj_append, seqProj_processVideo, seqProj_sleepE]
      simp [batchSkeleton, List.append_assoc]

/-- C5: `processMultipleVideos` processes the tasks sequentially in
input order (the sequencing projection of the trace is exactly one
stats fetch per task, in order, with a single 2000 ms pause between
consecutive tasks and none after the last), returns results in the same
order, and records exactly `N-1` pauses. -/
theorem processMultipleVideos_sequential_pacing (env : Env) (fuel : Nat)
    (videos : List VideoTask) (s : AState) (tr : List Event) :
    ((processMultipleVideos env fuel videos s tr).1.map fun r => r.videoId)
      = (videos.map fun v => v.videoId) ∧
    seqProj (processMultipleVideos env fuel videos s tr).2.2
      = seqProj tr ++ batchSkeleton videos ∧
    ((processMultipleVideos env fuel videos s tr).2.2.countP isSleepEvent)
      = tr.countP isSleepEvent + (videos.length - 1) := by
  refine ⟨(batch_results env fuel videos s tr).2.1,
    batch_seqProj env fuel videos s tr, ?_⟩
  have h := batch_seqProj env fuel videos s tr
  have h2 := countP_sleep_seqProj (processMultipleVideos env fuel videos s tr).2.2
  rw [h] at h2
  rw [← h2, List.countP_append, countSleep_batchSkeleton, countP_sleep_seqProj]

/-! ### Peak engagement (C8) -/

theorem ensure_peak (env : Env) (s : AState) (tr : List Event) :
    (ensureValidAccessToken env s tr).2.1.stats.peakEngagement
      = s.stats.peakEngagement := by
  rw [ensure_stats]

theorem refresh_peak (env : Env) (s : AState) (tr : List Event) :
    (refreshAccessToken env s tr).2.1.stats.peakEngagement
      = s.stats.peakEngagement := by
  rw [refreshAccessToken_stats]

theorem tryUpdateOnce_peak (env : Env) (vid nt : String) (s : AState) (tr : List Event) :
    (tryUpdateOnce env vid nt s tr).2.1.stats.peakEngagement
      = s.stats.peakEngagement := by
  rcases h : tryUpdateOnce env vid nt s tr with ⟨r, s', tr'⟩
  cases r with
  | error e =>
    have hx := tryUpdateOnce_error_state env vid nt s tr e s' tr' h
    dsimp only
    rw [hx]
  | ok u =>
    have hx := tryUpdateOnce_ok_state env vid nt s tr u s' tr' h
    dsimp only
    rw [hx]

theorem processVideo_peak (env : Env) (fuel : Nat) (vid ot : String)
    (s : AState) (tr : List Event) :
    s.stats.peakEngagement ≤ (processVideo env fuel vid ot s tr).2.1.stats.peakEngagement := by
  rw [processVideo]
  rcases h : getVideoStats env vid s tr with ⟨r, s1, t1⟩
  have hle : s.stats.peakEngagement ≤ s1.stats.peakEngagement := by
    have hx := getVideoStats_peak_le env vid s tr
    rw [h] at hx
    exact hx
  cases r with
  | error e => exact hle
  | ok stats =>
    dsimp only
    split
    · exact hle
    · rcases h2 : updateVideoTitle env fuel vid
          (generateDynamicTitle stats ot env.randIdx) s1 t1 with ⟨r2, s2, t2⟩
      have hp2 : s2.stats.peakEngagement = s1.stats.peakEngagement := by
        have hx := updateVideoTitle_peak env fuel vid
          (generateDynamicTitle stats ot env.randIdx) s1 t1
        rw [h2] at hx
        exact hx
      cases r2 with
      | error e =>
        dsimp only
        omega
      | ok b =>
        dsimp only
        omega

theorem processMultipleVideos_peak (env : Env) (fuel : Nat) :
    ∀ (videos : List VideoTask) (s : AState) (tr : List Event),
      s.stats.peakEngagement
        ≤ (processMultipleVideos env fuel videos s tr).2.1.stats.peakEngagement := by
  intro videos
  induction videos with
  | nil =>
    intro s tr
    rw [pmv_nil]
  | cons v rest ih =>
    intro s tr
    cases rest with
    | nil =>
      rw [pmv_single]
      dsimp only
      exact processVideo_peak env fuel v.videoId v.originalTitle s tr
    | cons v2 rest2 =>
      rw [pmv_cons₂]
      dsimp only
      exact le_trans (processVideo_peak env fuel v.videoId v.originalTitle s tr) (ih _ _)

/-- C8: `peakEngagement` is monotone — the stats fetcher is the only
operation that mutates it, setting it to
`max peakEngagement (likes + comments)`, and no operation ever
decreases or resets it. -/
theorem peakEngagement_monotone :
    (∀ env vid s tr stats s1 t1,
       getVideoStats env vid s tr = (Except.ok stats, s1, t1) →
       s1.stats.peakEngagement
         = max s.stats.peakEngagement (stats.likes + stats.comments)) ∧
    (∀ env vid s tr,
       s.stats.peakEngagement ≤ (getVideoStats env vid s tr).2.1.stats.peakEngagement) ∧
    (∀ env s tr,
       (refreshAccessToken env s tr).2.1.stats.peakEngagement = s.stats.peakEngagement) ∧
    (∀ env s tr,
       (ensureValidAccessToken env s tr).2.1.stats.peakEngagement = s.stats.peakEngagement) ∧
    (∀ env vid nt s tr,
       (tryUpdateOnce env vid nt s tr).2.1.stats.peakEngagement = s.stats.peakEngagement) ∧
    (∀ env fuel vid nt s tr,
       (updateVideoTitle env fuel vid nt s tr).2.1.stats.peakEngagement
         = s.stats.peakEngagement) ∧
    (∀ env fuel vid ot s tr,
       s.stats.peakEngagement ≤ (processVideo env fuel vid ot s tr).2.1.stats.peakEngagement) ∧
    (∀ env fuel videos s tr,
       s.stats.peakEngagement
         ≤ (processMultipleVideos env fuel videos s tr).2.1.stats.peakEngagement) :=
  ⟨fun env vid s tr stats s1 t1 h => getVideoStats_peak_ok env vid s tr stats s1 t1 h,
   fun env vid s tr => getVideoStats_peak_le env vid s tr,
   fun env s tr => refresh_peak env s tr,
   fun env s tr => ensure_peak env s tr,
   fun env vid nt s tr => tryUpdateOnce_peak env vid nt s tr,
   fun env fuel vid nt s tr => updateVideoTitle_peak env fuel vid nt s tr,
   fun env fuel vid ot s tr => processVideo_peak env fuel vid ot s tr,
   fun env fuel videos s tr => processMultipleVideos_peak env fuel videos s tr⟩

end Vaultittech
